import Mathlib

/-!
Shallow embedding of the art_hub backend (Honfi555/art_hub-backend) for
verification of its specification claims.

The relational state (PostgreSQL schemas `users.users` and
`articles.articles`) is modelled as lists of typed rows; the key-value
state (Redis) as association lists.  Backend connectivity failure
(`connect_pg` raising `OperationalError` / `InterfaceError`) is modelled
by an explicit `connFails : Bool` argument on the operations whose
source wraps the connection in a try/except.  SQL full-text and trigram
primitives (`@@`, `ts_rank_cd`, `similarity`, the `%` operator with its
`pg_trgm.similarity_threshold`) are abstract parameters gathered in
`SearchEnv`; the SHA-256 hex digest used by the credential store is the
abstract parameter `HashEnv.sha256Hex`.
-/

namespace ArtHub

/-- Row of the relational table `users.users`. -/
structure User where
  id : Int
  login : String
  password : String
  description : String
deriving Repr, DecidableEq

/-- Row of the relational table `articles.articles`. -/
structure Article where
  article_id : Int
  user_id : Int
  title : String
  announcement : String
  article_body : String
deriving Repr, DecidableEq

/-- The relational database state. -/
structure DbState where
  users : List User
  articles : List Article
deriving Repr, DecidableEq

/-- The pydantic model `ArticleFull` (app.models.articles). -/
structure ArticleFull where
  id : Int
  title : String
  user_name : String
  announcement : String
  article_body : String
deriving Repr, DecidableEq

/-- Abstract stand-in for `hashlib.sha256(...).hexdigest()`. -/
structure HashEnv where
  sha256Hex : String → String

/-- Exceptions escaping `change_password`: the three typed exceptions of
app.database.exceptions.change_password (`IncorrectLoginException`,
`OldPasswordMismatchException`, `SamePasswordException`) and a propagated
psycopg2 connectivity error.  The latter propagates because the module
imports `OperationalError`/`InterfaceError` from `sqlite3`, whose exception
hierarchy is disjoint from psycopg2's, so the except clause never matches
a real connectivity failure. -/
inductive CPError where
  | incorrectLogin
  | oldPasswordMismatch
  | samePassword
  | connectivity
deriving Repr, DecidableEq

/-- psycopg2 `errors.UniqueViolation` as propagated by the user-insert path. -/
inductive PgError where
  | uniqueViolation
deriving Repr, DecidableEq

/-- First row of `SELECT ... FROM users.users WHERE login = %s` (`fetchone`). -/
def findUserByLogin (st : DbState) (login : String) : Option User :=
  st.users.find? (fun u => u.login = login)

/-- The `UPDATE users.users SET password = %s WHERE login = %s` statement. -/
def setPassword (st : DbState) (login pw : String) : DbState :=
  { st with users := st.users.map (fun u => if u.login = login then { u with password := pw } else u) }

/-- Embedding of `change_password` (app/database/users/users.py).
A connectivity failure raised by `connect_pg` propagates out of the
function: the `except (OperationalError, InterfaceError)` clause binds
the sqlite3 classes of those names, which never match a psycopg2 error,
and there is no other handler.  The three typed exceptions propagate as
well; on success the digest of the new password is stored and `True`
returned. -/
def change_password (env : HashEnv) (connFails : Bool) (st : DbState)
    (login old_password new_password : String) : Except CPError Bool × DbState :=
  if connFails then (.error .connectivity, st)
  else
    match findUserByLogin st login with
    | none => (.error .incorrectLogin, st)
    | some u =>
      if u.password ≠ env.sha256Hex old_password then (.error .oldPasswordMismatch, st)
      else if old_password = new_password then (.error .samePassword, st)
      else (.ok true, setPassword st login (env.sha256Hex new_password))

/-- The dict payload handed to `process_user` / `insert_user`. -/
structure UserInput where
  login : String
  password : String
  description : String
deriving Repr, DecidableEq

/-- Serial id generation for `users.users` (monotone fresh key). -/
def nextUserId (st : DbState) : Int :=
  (st.users.map (fun u => u.id)).foldr max 0 + 1

/-- Embedding of `insert_user` (app/database/users/users.py): the INSERT
hits the unique constraint on `login` and the `UniqueViolation` is
re-raised; otherwise the row (with the SHA-256 digest of the password)
is added to the transaction and `True` returned. -/
def insert_user (env : HashEnv) (st : DbState) (user : UserInput) :
    Except PgError (Bool × DbState) :=
  if st.users.any (fun u => u.login = user.login) then .error .uniqueViolation
  else .ok (true, { st with
    users := st.users ++ [⟨nextUserId st, user.login, env.sha256Hex user.password, user.description⟩] })

/-- Embedding of `process_user` (app/database/users/users.py).
A connectivity failure raised by `connect_pg` is absorbed: the
sqlite3-imported `except (OperationalError, InterfaceError)` clause
never matches a psycopg2 error, but the final bare `except Exception`
clause catches it, rolls back, logs and falls through to an implicit
`None` return.  A `UniqueViolation` from `insert_user` is re-raised
with the transaction rolled back; an `insert_user` returning `False`
rolls back and returns `False`; otherwise the transaction commits. -/
def process_user (env : HashEnv) (connFails : Bool) (st : DbState) (user : UserInput) :
    Except PgError (Option Bool) × DbState :=
  if connFails then (.ok none, st)
  else
    match insert_user env st user with
    | .error e => (.error e, st)
    | .ok (true, st2) => (.ok (some true), st2)
    | .ok (false, _) => (.ok (some false), st)

/-- A psycopg2 connectivity error propagating out of an operation whose
only except clause binds the identically named sqlite3 classes. -/
inductive ConnError where
  | connectivity
deriving Repr, DecidableEq

/-- Embedding of `change_description` (app/database/users/users.py).
A connectivity failure raised by `connect_pg` propagates: the
`except (OperationalError, InterfaceError)` clause binds the sqlite3
classes, which never match a psycopg2 error, and there is no other
handler.  On the normal path the function returns Python `None`,
modelled as `Unit`. -/
def change_description (connFails : Bool) (st : DbState) (username descr : String) :
    Except ConnError Unit × DbState :=
  if connFails then (.error .connectivity, st)
  else
    (.ok (), { st with users := st.users.map (fun u =>
      if u.login = username then { u with description := descr } else u) })

/-- Result row of `select_articles_announcement`. -/
structure AnnouncementRow where
  article_id : Int
  title : String
  login : String
  announcement : String
deriving Repr, DecidableEq

/-- Result row of `select_articles_by_search` (a `RealDictCursor` dict). -/
structure SearchHit where
  article_id : Int
  title : String
  login : String
  score : ℚ
deriving Repr, DecidableEq

/-- PostgreSQL raises an error on a negative OFFSET or LIMIT value. -/
inductive QueryError where
  | negativePaging
deriving Repr, DecidableEq

/-- The `OFFSET %s LIMIT %s` tail shared by both listing queries, with
offset `(chunk - 1) * amount` and limit `amount` (1-indexed paging). -/
def applyPaging (amount chunk : Int) (rows : List α) : Except QueryError (List α) :=
  if (chunk - 1) * amount < 0 ∨ amount < 0 then .error .negativePaging
  else .ok ((rows.drop ((chunk - 1) * amount).toNat).take amount.toNat)

/-- Python truthiness of the optional `login` argument: `if login:` is
taken only for a present, non-empty string.  When taken, the SQL gets a
`WHERE us.login = %s` filter. -/
def applyLoginFilter (getLogin : α → String) (login : Option String) (rows : List α) : List α :=
  match login with
  | some s => if s = "" then rows else rows.filter (fun r => getLogin r = s)
  | none => rows

/-- Python truthiness of `if amount and chunk:` in
`select_articles_announcement`: paging is applied only when both are
present and non-zero. -/
def annPagingCond (amount chunk : Option Int) : Bool :=
  match amount, chunk with
  | some a, some c => decide (a ≠ 0) && decide (c ≠ 0)
  | _, _ => false

/-- The `if amount is not None and chunk is not None:` condition of
`select_articles_by_search`: paging is applied whenever both are present. -/
def searchPagingCond (amount chunk : Option Int) : Bool :=
  amount.isSome && chunk.isSome

/-- The `JOIN users.users us ON art.user_id = us.id` of the
announcement query, projected onto the four selected columns. -/
def joinedAnnouncements (st : DbState) : List AnnouncementRow :=
  st.articles.flatMap (fun a =>
    (st.users.filter (fun u => u.id = a.user_id)).map (fun u =>
      ⟨a.article_id, a.title, u.login, a.announcement⟩))

/-- Descending-id order used by `ORDER BY art.article_id DESC`. -/
def idGe (a b : AnnouncementRow) : Prop := b.article_id ≤ a.article_id

instance (a b : AnnouncementRow) : Decidable (idGe a b) :=
  inferInstanceAs (Decidable (b.article_id ≤ a.article_id))

instance : IsTotal AnnouncementRow idGe := ⟨fun a b => le_total b.article_id a.article_id⟩

instance : IsTrans AnnouncementRow idGe := ⟨fun _ _ _ hab hbc => le_trans hbc hab⟩

/-- The filtered, id-descending announcement listing before paging. -/
def sortedAnn (st : DbState) (login : Option String) : List AnnouncementRow :=
  List.insertionSort idGe (applyLoginFilter AnnouncementRow.login login (joinedAnnouncements st))

/-- Embedding of `select_articles_announcement` (app/database/articles/articles.py):
join with users, optional truthy login filter, `ORDER BY article_id DESC`,
and `OFFSET (chunk-1)*amount LIMIT amount` only when `amount and chunk`
are both truthy. -/
def select_articles_announcement (amount chunk : Option Int) (login : Option String)
    (st : DbState) : Except QueryError (List AnnouncementRow) :=
  let sorted := sortedAnn st login
  if annPagingCond amount chunk then applyPaging (amount.getD 0) (chunk.getD 0) sorted
  else .ok sorted

/-- Abstract interface to the PostgreSQL full-text and pg_trgm
primitives appearing in the search query: `search_vector @@
plainto_tsquery('russian', q)`, `ts_rank_cd(search_vector, tsq)`,
`similarity(text, rawq)` and the similarity threshold governing the
`%` operator. -/
structure SearchEnv where
  tsMatch : String → Article → Bool
  rankFts : String → Article → ℚ
  sim : String → String → ℚ
  simThreshold : ℚ

/-- The concatenation `coalesce(title,'') || ' ' || coalesce(announcement,'')
|| ' ' || coalesce(article_body,'')` used by the trigram CTE filter. -/
def concatFields (a : Article) : String :=
  a.title ++ " " ++ a.announcement ++ " " ++ a.article_body

/-- Lexical rank of an article for the query: present exactly when the
article is in the `fts` CTE, i.e. when `search_vector @@ q.tsq`. -/
def lexScore (env : SearchEnv) (q : String) (a : Article) : Option ℚ :=
  if env.tsMatch q a then some (env.rankFts q a) else none

/-- The `greatest(similarity(title, rawq), similarity(announcement, rawq),
similarity(article_body, rawq))` expression of the `trgm` CTE. -/
def maxSim (env : SearchEnv) (q : String) (a : Article) : ℚ :=
  max (env.sim a.title q) (max (env.sim a.announcement q) (env.sim a.article_body q))

/-- Fuzzy rank of an article for the query: present exactly when the
article is in the `trgm` CTE, i.e. when the concatenated fields pass the
`%` threshold test against the raw query. -/
def trgmScore (env : SearchEnv) (q : String) (a : Article) : Option ℚ :=
  if env.simThreshold ≤ env.sim (concatFields a) q then some (maxSim env q a) else none

/-- The combined score `coalesce(fts.rank_fts, 0) * 1.0 +
coalesce(trgm.rank_trgm, 0) * 0.5` after the two LEFT JOINs. -/
def combinedScore (env : SearchEnv) (q : String) (a : Article) : ℚ :=
  (lexScore env q a).getD 0 * 1 + (trgmScore env q a).getD 0 * (1 / 2)

/-- One output row of the search query for a joined (article, user) pair. -/
def mkHit (env : SearchEnv) (q : String) (a : Article) (u : User) : SearchHit :=
  ⟨a.article_id, a.title, u.login, combinedScore env q a⟩

/-- The ranked join: every article joined with its user rows, each row
carrying the combined score of the article. -/
def joinedHits (env : SearchEnv) (q : String) (st : DbState) : List SearchHit :=
  st.articles.flatMap (fun a =>
    (st.users.filter (fun u => u.id = a.user_id)).map (fun u => mkHit env q a u))

/-- Descending-score order used by `ORDER BY score DESC`. -/
def scoreGe (a b : SearchHit) : Prop := b.score ≤ a.score

instance (a b : SearchHit) : Decidable (scoreGe a b) :=
  inferInstanceAs (Decidable (b.score ≤ a.score))

instance : IsTotal SearchHit scoreGe := ⟨fun a b => le_total b.score a.score⟩

instance : IsTrans SearchHit scoreGe := ⟨fun _ _ _ hab hbc => le_trans hbc hab⟩

/-- The search rows after the optional truthy login filter and the
`(...) > 0` WHERE condition, sorted by score descending, before paging. -/
def sortedHits (env : SearchEnv) (q : String) (login : Option String) (st : DbState) :
    List SearchHit :=
  List.insertionSort scoreGe
    ((applyLoginFilter SearchHit.login login (joinedHits env q st)).filter
      (fun r => decide (0 < r.score)))

/-- Embedding of `select_articles_by_search` (app/database/articles/articles.py):
hybrid full-text + trigram ranking with LEFT JOIN null-coalescing,
optional truthy login filter, strict positivity filter, score-descending
order, and `OFFSET (chunk-1)*amount LIMIT amount` whenever both paging
arguments are not None. -/
def select_articles_by_search (env : SearchEnv) (query_str : String)
    (amount chunk : Option Int) (login : Option String) (st : DbState) :
    Except QueryError (List SearchHit) :=
  let sorted := sortedHits env query_str login st
  if searchPagingCond amount chunk then applyPaging (amount.getD 0) (chunk.getD 0) sorted
  else .ok sorted

/-- Embedding of `update_article`: full replace of title, body and
announcement of the row with the given id. -/
def update_article (st : DbState) (article : ArticleFull) : DbState :=
  { st with articles := st.articles.map (fun x =>
    if x.article_id = article.id then
      { x with title := article.title, article_body := article.article_body,
               announcement := article.announcement }
    else x) }

/-- Embedding of `delete_article`: hard delete of the row by id. -/
def delete_article (st : DbState) (article_id : Int) : DbState :=
  { st with articles := st.articles.filter (fun x => x.article_id ≠ article_id) }

/-- Ownership violation raised by the article-owner check. -/
inductive OwnershipError where
  | notOwner
deriving Repr, DecidableEq

/-- Login of the owner of an article: the login of the user row joined
on the article's `user_id`. -/
def ownerLoginOf (st : DbState) (article_id : Int) : Option String :=
  (st.articles.find? (fun a => a.article_id = article_id)).bind (fun a =>
    (st.users.find? (fun u => u.id = a.user_id)).map (fun u => u.login))

/-- Modelled from the spec: `check_article_owner` lives in
`app/database/utils.py`, which is not among the provided sources; only
its callers in `app/routers/feed.py` are.  Spec 4.3: `checkOwner(articleId,
login) -> bool | raises OwnershipError`, and with a non-owner login it
raises `OwnershipError`, which must prevent the caller's mutation. -/
def check_article_owner (st : DbState) (article_id : Int) (login : String) :
    Except OwnershipError Bool :=
  match ownerLoginOf st article_id with
  | some l => if l = login then .ok true else .error .notOwner
  | none => .error .notOwner

/-- HTTP outcome of a feed route: 200 success or a raised HTTPException. -/
inductive RouteStatus where
  | success
  | serverError
deriving Repr, DecidableEq

/-- Embedding of `update_article_route` (app/routers/feed.py): inside the
try block `check_article_owner` runs first; any exception skips the
mutation and yields a 500 response. -/
def update_article_route (st : DbState) (article_data : ArticleFull) (login : String) :
    RouteStatus × DbState :=
  match check_article_owner st article_data.id login with
  | .ok _ => (.success, update_article st article_data)
  | .error _ => (.serverError, st)

/-- Embedding of `remove_article_route` (app/routers/feed.py): the owner
check runs before `delete_article`; any exception skips the deletion. -/
def remove_article_route (st : DbState) (article_id : Int) (login : String) :
    RouteStatus × DbState :=
  match check_article_owner st article_id login with
  | .ok _ => (.success, delete_article st article_id)
  | .error _ => (.serverError, st)

/-- The Redis state: image blobs keyed by `user:{user_id}:image:{image_id}`
and per-user id lists keyed by `user:{user_id}:images`.  Because
`user_id` is an integer (its decimal form contains no colon), the key
format is injective, so keys are modelled structurally as pairs. -/
structure RedisState where
  images : List ((Int × String) × List Nat)
  lists : List (Int × List String)
deriving Repr, DecidableEq

/-- Abstract stand-in for `base64.b64decode`, which raises on invalid input. -/
structure RedisEnv where
  b64decode : String → Option (List Nat)

/-- Decoding failure of `base64.b64decode`. -/
inductive DecodeError where
  | invalidBase64
deriving Repr, DecidableEq

/-- Redis `GET` / `EXISTS` on an image key. -/
def kvLookup (kv : List ((Int × String) × List Nat)) (k : Int × String) : Option (List Nat) :=
  (kv.find? (fun p => p.1 = k)).map (fun p => p.2)

/-- Redis `LRANGE key 0 -1` of a user's image-id list (missing key reads
as the empty list). -/
def listLookup (st : RedisState) (user_id : Int) : List String :=
  ((st.lists.find? (fun p => p.1 = user_id)).map (fun p => p.2)).getD []

/-- Embedding of `select_user_images` (app/database/users/images.py):
`LRANGE 0 0` when `first_only`, `LRANGE 0 -1` otherwise. -/
def select_user_images (st : RedisState) (user_id : Int) (first_only : Bool) : List String :=
  if first_only then (listLookup st user_id).take 1
  else listLookup st user_id

/-- Embedding of `update_user_image` (app/database/users/images.py):
returns `False` without touching the store when the key does not exist;
otherwise decodes the payload and overwrites the existing key. -/
def update_user_image (env : RedisEnv) (st : RedisState) (user_id : Int)
    (image_id : String) (b64_image : String) : Except DecodeError (Bool × RedisState) :=
  match kvLookup st.images (user_id, image_id) with
  | none => .ok (false, st)
  | some _ =>
    match env.b64decode b64_image with
    | none => .error .invalidBase64
    | some bytes =>
      .ok (true, { st with images := st.images.map (fun p =>
        if p.1 = (user_id, image_id) then (p.1, bytes) else p) })

/-- The error which `change_password` actually raises for `old = new`,
determined by the guard order in the source: unknown login first, old
digest comparison second, equality of old and new passwords last. -/
def expectedSameCPError (env : HashEnv) (st : DbState) (login pwd : String) : CPError :=
  match findUserByLogin st login with
  | none => .incorrectLogin
  | some u => if u.password = env.sha256Hex pwd then .samePassword else .oldPasswordMismatch

/-- Concrete hash environment used in counterexamples and witnesses. -/
def hashEnv0 : HashEnv := ⟨fun s => s⟩

/-- Empty relational state. -/
def dbEmpty : DbState := ⟨[], []⟩

/-- Claim C10: `select_user_images` with `first_only = True` returns
exactly the length-at-most-one prefix of the list it returns with
`first_only = False` on the same store state. -/
theorem select_user_images_first_only_prefix (st : RedisState) (user_id : Int) :
    select_user_images st user_id true = (select_user_images st user_id false).take 1 := rfl

/-- Claim C9: `update_user_image` on an absent `(owner, image)` key
returns `False` without raising and leaves the store unchanged, and a
successful replacement (`True`) can only happen on a key that already
existed, so replace never creates an entry. -/
theorem update_user_image_absent_key (env : RedisEnv) (st : RedisState)
    (user_id : Int) (image_id b64 : String) :
    (kvLookup st.images (user_id, image_id) = none →
      update_user_image env st user_id image_id b64 = .ok (false, st)) ∧
    (∀ st2, update_user_image env st user_id image_id b64 = .ok (true, st2) →
      (kvLookup st.images (user_id, image_id)).isSome = true) := by
  constructor
  · intro h
    unfold update_user_image
    rw [h]
  · intro st2 h
    unfold update_user_image at h
    cases hk : kvLookup st.images (user_id, image_id) with
    | none => rw [hk] at h; simp at h
    | some v => simp [hk]

/-- Witness for claim C9 at a concrete empty store. -/
theorem update_user_image_absent_key_w :
    update_user_image ⟨fun _ => some []⟩ ⟨[], []⟩ 1 "img" "data" = .ok (false, ⟨[], []⟩) :=
  (update_user_image_absent_key ⟨fun _ => some []⟩ ⟨[], []⟩ 1 "img" "data").1 rfl

/-- Claim C8: for an article whose owner login differs from the caller's
login, `check_article_owner` raises `OwnershipError`, and the update and
delete routes then skip the mutation entirely, leaving the stored state
unchanged. -/
theorem owner_check_gates_mutation (st : DbState) (article_data : ArticleFull)
    (article_id : Int) (login l1 l2 : String)
    (h1 : ownerLoginOf st article_data.id = some l1) (hne1 : l1 ≠ login)
    (h2 : ownerLoginOf st article_id = some l2) (hne2 : l2 ≠ login) :
    check_article_owner st article_data.id login = .error .notOwner ∧
    update_article_route st article_data login = (.serverError, st) ∧
    check_article_owner st article_id login = .error .notOwner ∧
    remove_article_route st article_id login = (.serverError, st) := by
  have hc1 : check_article_owner st article_data.id login = .error .notOwner := by
    unfold check_article_owner
    rw [h1]
    simp [hne1]
  have hc2 : check_article_owner st article_id login = .error .notOwner := by
    unfold check_article_owner
    rw [h2]
    simp [hne2]
  refine ⟨hc1, ?_, hc2, ?_⟩
  · unfold update_article_route
    rw [hc1]
  · unfold remove_article_route
    rw [hc2]

/-- Concrete user, article and state for witnesses and counterexamples. -/
def u4 : User := ⟨1, "u", "", ""⟩

/-- Concrete article owned by `u4`. -/
def a4 : Article := ⟨1, 1, "t", "a", "b"⟩

/-- Concrete one-user, one-article state. -/
def st4 : DbState := ⟨[u4], [a4]⟩

/-- Witness for claim C8: a non-owner login is rejected and the state is
untouched on the concrete state `st4`. -/
theorem owner_check_gates_mutation_w :
    check_article_owner st4 (1 : Int) "intruder" = .error .notOwner ∧
    update_article_route st4 ⟨1, "t2", "intruder", "a2", "b2"⟩ "intruder" = (.serverError, st4) ∧
    check_article_owner st4 (1 : Int) "intruder" = .error .notOwner ∧
    remove_article_route st4 (1 : Int) "intruder" = (.serverError, st4) :=
  owner_check_gates_mutation st4 ⟨1, "t2", "intruder", "a2", "b2"⟩ 1 "intruder" "u" "u"
    (by decide) (by decide) (by decide) (by decide)

/-- Claim C5: inserting a user whose login already exists makes
`process_user` propagate the `UniqueViolation` conflict (distinct from
the ordinary `False`/`None` returns), and the state, in particular the
existing user's row, is unchanged. -/
theorem process_user_duplicate_login (env : HashEnv) (st : DbState) (user : UserInput)
    (hdup : st.users.any (fun u => u.login = user.login) = true) :
    process_user env false st user = (.error .uniqueViolation, st) := by
  unfold process_user insert_user
  simp [hdup]

/-- Witness for claim C5 on a concrete one-user state. -/
theorem process_user_duplicate_login_w :
    process_user hashEnv0 false ⟨[⟨1, "bob", "h", "d"⟩], []⟩ ⟨"bob", "pw", "d2"⟩ =
      (.error .uniqueViolation, ⟨[⟨1, "bob", "h", "d"⟩], []⟩) :=
  process_user_duplicate_login hashEnv0 ⟨[⟨1, "bob", "h", "d"⟩], []⟩ ⟨"bob", "pw", "d2"⟩ (by decide)

/-- Counterexample to claim C3: with the backend unreachable,
`process_user` absorbs the connectivity failure through its bare
`except Exception` clause and returns the ordinary value `None` with the
state unchanged, instead of propagating a failure signal. -/
theorem process_user_absorbs_connectivity_cex :
    process_user hashEnv0 true dbEmpty ⟨"u", "p", "d"⟩ = (.ok none, dbEmpty) ∧
    (Except.ok (none : Option Bool) : Except PgError (Option Bool)) ≠ .error .uniqueViolation :=
  ⟨rfl, by intro h; exact Except.noConfusion h⟩

/-- Claim C3 as amended: on connectivity failure `change_password` and
`change_description` propagate the error (their except clauses bind the
sqlite3 exception classes, which never match a psycopg2 error), while
`process_user` absorbs it via its generic handler and returns the
ordinary value `None`; each operation leaves the state unchanged. -/
theorem connectivity_propagation (env : HashEnv) (st : DbState) (user : UserInput)
    (login old_pw new_pw descr : String) :
    process_user env true st user = (.ok none, st) ∧
    change_password env true st login old_pw new_pw = (.error .connectivity, st) ∧
    change_description true st login descr = (.error .connectivity, st) :=
  ⟨rfl, rfl, rfl⟩

/-- Counterexample to claim C2: on a state where the login is absent,
`change_password` with equal old and new passwords fails with
`IncorrectLoginException`, not with `SamePasswordException`. -/
theorem change_password_same_cex :
    (change_password hashEnv0 false dbEmpty "u" "p" "p").1 = .error .incorrectLogin ∧
    (Except.error CPError.incorrectLogin : Except CPError Bool) ≠ .error .samePassword :=
  ⟨rfl, by intro h; exact absurd (Except.error.inj h) (by decide)⟩

/-- Claim C2 as amended: with `old = new` and the backend reachable,
`change_password` never updates the stored digest; it fails with
`SamePasswordException` when the login exists and the old password
matches the stored digest, with `IncorrectLoginException` when the login
is absent, and with `OldPasswordMismatchException` otherwise. -/
theorem change_password_same_password (env : HashEnv) (st : DbState) (login pwd : String) :
    (change_password env false st login pwd pwd).2 = st ∧
    (change_password env false st login pwd pwd).1 =
      .error (expectedSameCPError env st login pwd) := by
  unfold change_password expectedSameCPError
  cases h : findUserByLogin st login with
  | none => simp
  | some u =>
    by_cases hp : u.password = env.sha256Hex pwd <;> simp [hp]

lemma applyLoginFilter_none (getLogin : α → String) (rows : List α) :
    applyLoginFilter getLogin none rows = rows := rfl

lemma mem_joinedHits {env : SearchEnv} {q : String} {st : DbState} {h : SearchHit} :
    h ∈ joinedHits env q st ↔
    ∃ a, a ∈ st.articles ∧ ∃ u, u ∈ st.users ∧ u.id = a.user_id ∧ h = mkHit env q a u := by
  unfold joinedHits
  simp only [List.mem_flatMap, List.mem_map, List.mem_filter, decide_eq_true_eq]
  constructor
  · rintro ⟨a, ha, u, ⟨hu, hid⟩, rfl⟩
    exact ⟨a, ha, u, hu, hid, rfl⟩
  · rintro ⟨a, ha, u, hu, hid, rfl⟩
    exact ⟨a, ha, u, ⟨hu, hid⟩, rfl⟩

lemma mem_sortedHits {env : SearchEnv} {q : String} {login : Option String} {st : DbState}
    {h : SearchHit} :
    h ∈ sortedHits env q login st ↔
    h ∈ applyLoginFilter SearchHit.login login (joinedHits env q st) ∧ 0 < h.score := by
  unfold sortedHits
  rw [(List.perm_insertionSort scoreGe _).mem_iff, List.mem_filter]
  simp

/-- Claim C1: calling the search with default arguments, every returned
hit carries score `1.0 * lexical + 0.5 * fuzzy` with an absent signal
coalesced to `0`, and a joined (article, user) pair is in the result if
and only if that combined score is strictly positive. -/
theorem search_inclusion_and_score (env : SearchEnv) (q : String) (st : DbState) :
    ∃ rows, select_articles_by_search env q none none none st = .ok rows ∧
      (∀ h ∈ rows, ∃ a, a ∈ st.articles ∧ ∃ u, u ∈ st.users ∧ u.id = a.user_id ∧
        h = mkHit env q a u ∧
        h.score = (lexScore env q a).getD 0 * 1 + (trgmScore env q a).getD 0 * (1 / 2) ∧
        0 < h.score) ∧
      (∀ a ∈ st.articles, ∀ u ∈ st.users, u.id = a.user_id →
        (mkHit env q a u ∈ rows ↔ 0 < combinedScore env q a)) := by
  refine ⟨sortedHits env q none st, rfl, ?_, ?_⟩
  · intro h hh
    obtain ⟨hm, hpos⟩ := mem_sortedHits.mp hh
    rw [applyLoginFilter_none] at hm
    obtain ⟨a, ha, u, hu, hid, rfl⟩ := mem_joinedHits.mp hm
    exact ⟨a, ha, u, hu, hid, rfl, rfl, hpos⟩
  · intro a ha u hu hid
    constructor
    · intro hm
      exact (mem_sortedHits.mp hm).2
    · intro hpos
      apply mem_sortedHits.mpr
      refine ⟨?_, hpos⟩
      rw [applyLoginFilter_none]
      exact mem_joinedHits.mpr ⟨a, ha, u, hu, hid, rfl⟩

/-- Search environment in which everything matches lexically with rank 1
and nothing matches by trigram. -/
def env7 : SearchEnv := ⟨fun _ _ => true, fun _ _ => 1, fun _ _ => 0, 1⟩

/-- Witness for claim C1: on the concrete state `st4` the article is
returned because its combined score is positive. -/
theorem search_inclusion_and_score_w :
    ∃ rows, select_articles_by_search env7 "q" none none none st4 = .ok rows ∧
      mkHit env7 "q" a4 u4 ∈ rows := by
  obtain ⟨rows, h1, _, h3⟩ := search_inclusion_and_score env7 "q" st4
  refine ⟨rows, h1, ?_⟩
  refine (h3 a4 (by simp [st4]) u4 (by simp [st4]) rfl).mpr ?_
  norm_num [combinedScore, lexScore, trgmScore, env7, maxSim]

/-- Search environment with no lexical matches, per-field similarity
positive on the title only, and a threshold the concatenated text never
reaches. -/
def env4 : SearchEnv := ⟨fun _ _ => false, fun _ _ => 0, fun s _ => if s = "t" then 1 else 0, 1⟩

/-- Counterexample to claim C4: the article `a4` has no lexical match
and strictly positive trigram similarity to its title, yet the search
returns nothing, because the concatenated fields fail the `%` threshold
test of the `trgm` CTE. -/
theorem search_trgm_threshold_cex :
    env4.tsMatch "q" a4 = false ∧
    0 < env4.sim a4.title "q" ∧
    select_articles_by_search env4 "q" none none none st4 = .ok [] := by
  refine ⟨rfl, by norm_num [env4, a4], ?_⟩
  have hscat : ¬ (("t" : String) ++ " " ++ "a" ++ " " ++ "b" = "t") := by decide
  have hscore : combinedScore env4 "q" a4 = 0 := by
    norm_num [combinedScore, lexScore, trgmScore, env4, a4, concatFields, maxSim, hscat]
  have hjoin : applyLoginFilter SearchHit.login none (joinedHits env4 "q" st4) =
      [mkHit env4 "q" a4 u4] := rfl
  have hpos : ¬ (0 < (mkHit env4 "q" a4 u4).score) := by
    rw [show (mkHit env4 "q" a4 u4).score = combinedScore env4 "q" a4 from rfl, hscore]
    norm_num
  have h1 : sortedHits env4 "q" none st4 = [] := by
    unfold sortedHits
    rw [hjoin, List.filter_cons]
    simp [hpos]
  simp [select_articles_by_search, searchPagingCond, h1]

/-- Claim C4 as amended: an article with no lexical match is returned
exactly when its concatenated title/announcement/body passes the trigram
threshold test against the query and the maximum per-field similarity is
positive, and its score is then `0.5` times that maximum (so positive
per-field similarity alone does not guarantee inclusion). -/
theorem search_trgm_requires_threshold (env : SearchEnv) (q : String) (st : DbState)
    (a : Article) (u : User) (ha : a ∈ st.articles) (hu : u ∈ st.users)
    (hid : u.id = a.user_id) (hlex : env.tsMatch q a = false) :
    ∃ rows, select_articles_by_search env q none none none st = .ok rows ∧
      ((mkHit env q a u ∈ rows) ↔
        (env.simThreshold ≤ env.sim (concatFields a) q ∧ 0 < maxSim env q a)) ∧
      (mkHit env q a u).score =
        (if env.simThreshold ≤ env.sim (concatFields a) q then maxSim env q a else 0) * (1 / 2) := by
  have hsc : combinedScore env q a =
      (if env.simThreshold ≤ env.sim (concatFields a) q then maxSim env q a else 0) * (1 / 2) := by
    unfold combinedScore lexScore trgmScore
    rw [hlex]
    by_cases hth : env.simThreshold ≤ env.sim (concatFields a) q
    · simp [hth]
    · simp [hth]
  refine ⟨sortedHits env q none st, rfl, ?_, hsc⟩
  constructor
  · intro hm
    have hpos := (mem_sortedHits.mp hm).2
    rw [show (mkHit env q a u).score = combinedScore env q a from rfl, hsc] at hpos
    by_cases hth : env.simThreshold ≤ env.sim (concatFields a) q
    · rw [if_pos hth] at hpos
      exact ⟨hth, by linarith⟩
    · rw [if_neg hth] at hpos
      norm_num at hpos
  · rintro ⟨hth, hpos⟩
    apply mem_sortedHits.mpr
    refine ⟨?_, ?_⟩
    · rw [applyLoginFilter_none]
      exact mem_joinedHits.mpr ⟨a, ha, u, hu, hid, rfl⟩
    · rw [show (mkHit env q a u).score = combinedScore env q a from rfl, hsc, if_pos hth]
      linarith

/-- Search environment passing the threshold with uniform similarity 1. -/
def env4w : SearchEnv := ⟨fun _ _ => false, fun _ _ => 0, fun _ _ => 1, 0⟩

/-- Witness for claim C4 as amended, instantiated on the concrete state
`st4` with a threshold the concatenation does pass. -/
theorem search_trgm_requires_threshold_w :
    ∃ rows, select_articles_by_search env4w "q" none none none st4 = .ok rows ∧
      ((mkHit env4w "q" a4 u4 ∈ rows) ↔
        (env4w.simThreshold ≤ env4w.sim (concatFields a4) "q" ∧ 0 < maxSim env4w "q" a4)) ∧
      (mkHit env4w "q" a4 u4).score =
        (if env4w.simThreshold ≤ env4w.sim (concatFields a4) "q" then maxSim env4w "q" a4
         else 0) * (1 / 2) :=
  search_trgm_requires_threshold env4w "q" st4 a4 u4 (by simp [st4]) (by simp [st4]) rfl rfl

/-- Announcement row produced from `st4`. -/
def annRow4 : AnnouncementRow := ⟨1, "t", "u", "a"⟩

/-- Counterexample to claim C6: with `amount = 0` and `chunk = 1` both
given, no paging is applied (Python truthiness of `if amount and chunk:`)
and the full listing is returned, although a limit of `0` would demand
an empty result. -/
theorem announcement_zero_amount_cex :
    select_articles_announcement (some 0) (some 1) none st4 = .ok [annRow4] ∧
    ¬ ([annRow4].length ≤ 0) := by
  exact ⟨rfl, by decide⟩

/-- Claim C6 as amended: the listing is ordered by article id descending
and restricted to the given author when a truthy login filter is
present; when both paging arguments are given and non-zero, the result
is the slice at offset `(chunk - 1) * amount` of length at most `amount`
of that ordering. -/
theorem announcement_order_filter_paging (st : DbState) (login : Option String) (a c : Int)
    (ha : 0 < a) (hc : 0 < c) :
    select_articles_announcement none none login st = .ok (sortedAnn st login) ∧
    List.Sorted idGe (sortedAnn st login) ∧
    (∀ s, login = some s → s ≠ "" → ∀ r ∈ sortedAnn st login, r.login = s) ∧
    select_articles_announcement (some a) (some c) login st =
      .ok (((sortedAnn st login).drop ((c - 1) * a).toNat).take a.toNat) ∧
    (((sortedAnn st login).drop ((c - 1) * a).toNat).take a.toNat).length ≤ a.toNat := by
  refine ⟨rfl, List.sorted_insertionSort idGe _, ?_, ?_, ?_⟩
  · rintro s rfl hs r hr
    unfold sortedAnn at hr
    have hmem := ((List.perm_insertionSort idGe _).mem_iff).mp hr
    simp only [applyLoginFilter, if_neg hs] at hmem
    simpa using (List.mem_filter.mp hmem).2
  · have hcond : annPagingCond (some a) (some c) = true := by
      simp only [annPagingCond, Bool.and_eq_true, decide_eq_true_eq]
      omega
    have hoff : ¬ ((c - 1) * a < 0 ∨ a < 0) := by
      push_neg
      exact ⟨mul_nonneg (by linarith) (by linarith), by linarith⟩
    simp [select_articles_announcement, hcond, applyPaging, hoff]
  · rw [List.length_take]
    exact min_le_left _ _

/-- Witness for claim C6 as amended, at `amount = 1`, `chunk = 1` on the
concrete state `st4`. -/
theorem announcement_order_filter_paging_w :
    select_articles_announcement none none none st4 = .ok (sortedAnn st4 none) ∧
    List.Sorted idGe (sortedAnn st4 none) ∧
    (∀ s, (none : Option String) = some s → s ≠ "" → ∀ r ∈ sortedAnn st4 none, r.login = s) ∧
    select_articles_announcement (some 1) (some 1) none st4 =
      .ok (((sortedAnn st4 none).drop (((1 : Int) - 1) * 1).toNat).take (1 : Int).toNat) ∧
    (((sortedAnn st4 none).drop (((1 : Int) - 1) * 1).toNat).take (1 : Int).toNat).length ≤
      (1 : Int).toNat :=
  announcement_order_filter_paging st4 none 1 1 (by decide) (by decide)

/-- Counterexample to claim C7: at `amount = 0`, `chunk = 1` the two
operations disagree on whether paging triggers — the announcement
listing skips paging and returns its full result while the search
applies `LIMIT 0` and returns nothing. -/
theorem paging_condition_divergence_cex :
    annPagingCond (some 0) (some 1) = false ∧
    searchPagingCond (some 0) (some 1) = true ∧
    select_articles_announcement (some 0) (some 1) none st4 = .ok [annRow4] ∧
    select_articles_by_search env7 "q" (some 0) (some 1) none st4 = .ok [] := by
  refine ⟨rfl, rfl, rfl, ?_⟩
  have hscore : combinedScore env7 "q" a4 = 1 := by
    norm_num [combinedScore, lexScore, trgmScore, env7, maxSim]
  have hjoin : applyLoginFilter SearchHit.login none (joinedHits env7 "q" st4) =
      [mkHit env7 "q" a4 u4] := rfl
  have hpos : 0 < (mkHit env7 "q" a4 u4).score := by
    rw [show (mkHit env7 "q" a4 u4).score = combinedScore env7 "q" a4 from rfl, hscore]
    norm_num
  have h1 : sortedHits env7 "q" none st4 = [mkHit env7 "q" a4 u4] := by
    unfold sortedHits
    rw [hjoin, List.filter_cons]
    simp [hpos, List.insertionSort, List.orderedInsert]
  simp [select_articles_by_search, searchPagingCond, h1, applyPaging]

/-- Claim C7 as amended: both listings use the identical offset
`(chunk - 1) * amount` and limit `amount`, and their paging triggers
agree except when a given `amount` or `chunk` equals `0`: the
announcement listing pages only when both are truthy, the search pages
whenever both are present. -/
theorem paging_same_conditions_and_formula :
    (∀ ao co : Option Int, ao ≠ some 0 → co ≠ some 0 →
      annPagingCond ao co = searchPagingCond ao co) ∧
    (∀ env q st login (a c : Int), a ≠ 0 → c ≠ 0 →
      select_articles_announcement (some a) (some c) login st =
        applyPaging a c (sortedAnn st login) ∧
      select_articles_by_search env q (some a) (some c) login st =
        applyPaging a c (sortedHits env q login st)) := by
  constructor
  · intro ao co hao hco
    cases ao with
    | none => cases co <;> rfl
    | some av =>
      cases co with
      | none => rfl
      | some cv =>
        have hav : av ≠ 0 := fun h => hao (by rw [h])
        have hcv : cv ≠ 0 := fun h => hco (by rw [h])
        simp [annPagingCond, searchPagingCond, hav, hcv]
  · intro env q st login a c hA hC
    constructor
    · have hcond : annPagingCond (some a) (some c) = true := by
        simp [annPagingCond, hA, hC]
      simp [select_articles_announcement, hcond]
    · unfold select_articles_by_search
      rfl

/-- Witness for claim C7 as amended at `amount = 2`, `chunk = 3`. -/
theorem paging_same_conditions_and_formula_w :
    annPagingCond (some 2) (some 3) = searchPagingCond (some 2) (some 3) ∧
    select_articles_announcement (some 2) (some 3) none st4 =
      applyPaging 2 3 (sortedAnn st4 none) ∧
    select_articles_by_search env7 "q" (some 2) (some 3) none st4 =
      applyPaging 2 3 (sortedHits env7 "q" none st4) :=
  ⟨paging_same_conditions_and_formula.1 (some 2) (some 3) (by decide) (by decide),
   (paging_same_conditions_and_formula.2 env7 "q" st4 none 2 3 (by decide) (by decide)).1,
   (paging_same_conditions_and_formula.2 env7 "q" st4 none 2 3 (by decide) (by decide)).2⟩

end ArtHub
